import Mathlib

/-!
Verification of the libinjection error-handling design: a shallow embedding
of the tri-state result type from src/src/libinjection_error.h together with
models of the detection pipeline components described by the design document
(ByteCursor, SqlTokenizer, FingerprintFolder, SqliMatcher, Html5Tokenizer,
XssDetector).  Inputs are byte sequences, represented as lists of natural
numbers (byte values 0..255; the model is total on all naturals).
-/

set_option maxRecDepth 10000

/-- The tri-state result enum from src/src/libinjection_error.h:
LIBINJECTION_RESULT_FALSE = 0, LIBINJECTION_RESULT_TRUE = 1,
LIBINJECTION_RESULT_ERROR = -1. -/
inductive injection_result_t where
  | LIBINJECTION_RESULT_FALSE
  | LIBINJECTION_RESULT_TRUE
  | LIBINJECTION_RESULT_ERROR
deriving DecidableEq

/-- The integer value carried by each enumerator of injection_result_t in
src/src/libinjection_error.h (C enum encoding). -/
def injection_result_t.toInt : injection_result_t → Int
  | .LIBINJECTION_RESULT_FALSE => 0
  | .LIBINJECTION_RESULT_TRUE => 1
  | .LIBINJECTION_RESULT_ERROR => -1

/-- Byte classifier: ASCII decimal digit. -/
def isDigitByte (b : Nat) : Bool := 48 ≤ b && b ≤ 57

/-- Byte classifier: ASCII letter. -/
def isLetterByte (b : Nat) : Bool := (65 ≤ b && b ≤ 90) || (97 ≤ b && b ≤ 122)

/-- Byte classifier: ASCII whitespace (space, tab, LF, CR, FF). -/
def isWsByte (b : Nat) : Bool := b = 32 || b = 9 || b = 10 || b = 13 || b = 12

/-- Byte classifier: hexadecimal digit. -/
def isHexByte (b : Nat) : Bool :=
  isDigitByte b || (65 ≤ b && b ≤ 70) || (97 ≤ b && b ≤ 102)

/-- ASCII lower-casing of a single byte. -/
def toLowerByte (b : Nat) : Nat := if 65 ≤ b ∧ b ≤ 90 then b + 32 else b

/-- Modelled from the spec (§4.5, missing source file libinjection_html5.c):
the tokenization states of the HTML5 subset machine.  The attribute
sub-states of the spec are folded into a single in-tag state driven by
scanning helpers; the caller-chosen start state of `html5_init` is a value
of this enum (the tests use DATA_STATE). -/
inductive html5_state where
  | DATA_STATE
  | TAG_STATE
deriving DecidableEq

/-- Modelled from the spec (§4.5): the kind of token/event produced by one
step of the Html5Tokenizer. -/
inductive h5_token_type where
  | DATA_TEXT
  | TAG_NAME_OPEN
  | TAG_NAME_CLOSE
  | TAG_NAME_END
  | ATTR_NAME
  | ATTR_VALUE
  | TAG_COMMENT
deriving DecidableEq

/-- Modelled from the spec (§3 TokenizerState, missing source file
libinjection_html5.c): one TokenizerState value per active scan — the input
span, cursor position, current tokenization state, and the small scratch
buffer holding the in-progress token. -/
structure h5_state_t where
  input : List Nat
  pos : Nat
  state : html5_state
  token_type : h5_token_type
  token_buf : List Nat
deriving DecidableEq

/-- Modelled from the spec (§4.5): cap on the length of any single token
buffer (tag name, attribute buffer); exceeding it truncates. -/
def H5_TOKEN_CAP : Nat := 128

/-- Byte classifier: tag-name character (letter, digit or dash). -/
def isTagNameByte (b : Nat) : Bool := isLetterByte b || isDigitByte b || b = 45

/-- Byte classifier: bytes skipped between attributes inside a tag
(whitespace and the solidus). -/
def isTagSkipByte (b : Nat) : Bool := isWsByte b || b = 47

/-- Byte classifier: attribute-name character (anything but whitespace,
solidus, greater-than, equals). -/
def isAttrNameByte (b : Nat) : Bool :=
  !(isWsByte b) && b ≠ 47 && b ≠ 62 && b ≠ 61

/-- Byte classifier: unquoted attribute-value character (anything but
whitespace and greater-than). -/
def isAttrValueByte (b : Nat) : Bool := !(isWsByte b) && b ≠ 62

/-- Modelled from the spec (§4.5, missing source file libinjection_html5.c):
the transition core of the Html5Tokenizer.  Given the current tokenization
state and the remaining bytes, produce the next token: its type, its bytes,
the number of input bytes consumed, and the successor state; `none` when the
input is exhausted.  Every (state, byte-class) pair has a defined transition,
so the machine is total. -/
def h5scan : html5_state → List Nat → Option (h5_token_type × List Nat × Nat × html5_state)
  | .DATA_STATE, [] => none
  | .DATA_STATE, c :: rest =>
    if c = 60 then
      match rest with
      | [] => some (.DATA_TEXT, [60], 1, .DATA_STATE)
      | d :: rest2 =>
        if isLetterByte d then
          some (.TAG_NAME_OPEN, d :: rest2.takeWhile isTagNameByte,
                2 + (rest2.takeWhile isTagNameByte).length, .TAG_STATE)
        else if d = 47 then
          match rest2 with
          | [] => some (.DATA_TEXT, [60], 1, .DATA_STATE)
          | e :: rest3 =>
            if isLetterByte e then
              some (.TAG_NAME_CLOSE, e :: rest3.takeWhile isTagNameByte,
                    3 + (rest3.takeWhile isTagNameByte).length, .TAG_STATE)
            else some (.DATA_TEXT, [60], 1, .DATA_STATE)
        else if d = 33 then
          some (.TAG_COMMENT, rest2.takeWhile (fun b => b ≠ 62),
                2 + (rest2.takeWhile (fun b => b ≠ 62)).length +
                  (if (rest2.takeWhile (fun b => b ≠ 62)).length < rest2.length
                   then 1 else 0),
                .DATA_STATE)
        else some (.DATA_TEXT, [60], 1, .DATA_STATE)
    else
      some (.DATA_TEXT, (c :: rest).takeWhile (fun b => b ≠ 60),
            ((c :: rest).takeWhile (fun b => b ≠ 60)).length, .DATA_STATE)
  | .TAG_STATE, rest =>
    match rest.drop (rest.takeWhile isTagSkipByte).length with
    | [] => none
    | c :: rest2 =>
      if c = 62 then
        some (.TAG_NAME_END, [], (rest.takeWhile isTagSkipByte).length + 1,
              .DATA_STATE)
      else if c = 61 then
        match rest2 with
        | [] => some (.ATTR_VALUE, [], (rest.takeWhile isTagSkipByte).length + 1,
                      .TAG_STATE)
        | q :: rest3 =>
          if q = 34 ∨ q = 39 then
            some (.ATTR_VALUE, rest3.takeWhile (fun b => b ≠ q),
                  (rest.takeWhile isTagSkipByte).length + 2 +
                    (rest3.takeWhile (fun b => b ≠ q)).length +
                    (if (rest3.takeWhile (fun b => b ≠ q)).length < rest3.length
                     then 1 else 0),
                  .TAG_STATE)
          else if q = 62 then
            some (.ATTR_VALUE, [], (rest.takeWhile isTagSkipByte).length + 1,
                  .TAG_STATE)
          else
            some (.ATTR_VALUE, q :: rest3.takeWhile isAttrValueByte,
                  (rest.takeWhile isTagSkipByte).length + 2 +
                    (rest3.takeWhile isAttrValueByte).length,
                  .TAG_STATE)
      else
        some (.ATTR_NAME, c :: rest2.takeWhile isAttrNameByte,
              (rest.takeWhile isTagSkipByte).length + 1 +
                (rest2.takeWhile isAttrNameByte).length,
              .TAG_STATE)

/-- Modelled from the spec (§4.5): one step of the Html5Tokenizer as a state
transformer; the Bool records whether a token was produced.  Emitted token
buffers are truncated at H5_TOKEN_CAP. -/
def h5step (s : h5_state_t) : Bool × h5_state_t :=
  match h5scan s.state (s.input.drop s.pos) with
  | none => (false, s)
  | some (tt, buf, con, st2) =>
    (true, { s with
             pos := s.pos + con
             state := st2
             token_type := tt
             token_buf := buf.take H5_TOKEN_CAP })

/-- Modelled from the spec (§6, missing source file libinjection_html5.c):
`html5_init(state, input, length, start_state)` resets the machine to a
caller-chosen starting state over the given input. -/
def libinjection_h5_init (input : List Nat) (flags : html5_state) : h5_state_t :=
  { input := input, pos := 0, state := flags,
    token_type := .DATA_TEXT, token_buf := [] }

/-- Modelled from the spec (§6, missing source file libinjection_html5.c):
`html5_next(state) -> DetectionResult` advances exactly one token's worth of
state: MATCH while a token was produced, NO_MATCH when input is exhausted
cleanly.  The state mutation of the C API is rendered as state passing. -/
def libinjection_h5_next (s : h5_state_t) : injection_result_t × h5_state_t :=
  match h5step s with
  | (false, s2) => (.LIBINJECTION_RESULT_FALSE, s2)
  | (true, s2) => (.LIBINJECTION_RESULT_TRUE, s2)

/-- Iterating the state component of `libinjection_h5_next` n times, as the
test driver loops do. -/
def h5IterState : Nat → h5_state_t → h5_state_t
  | 0, s => s
  | Nat.succ n, s => h5IterState n (libinjection_h5_next s).2

/-- Modelled from the spec (§3 Token, missing source file
libinjection_sqli.c): the kinds of SQL tokens emitted by the tokenizer. -/
inductive sql_token_kind where
  | KEYWORD
  | OPERATOR
  | STRING
  | NUMBER
  | IDENTIFIER
  | COMMENT
  | VARIABLE
  | UNKNOWN
deriving DecidableEq

/-- Modelled from the spec (§3 Token): kind, text span and start offset of
one SQL token (the length of the span is the length of its text). -/
structure sql_token where
  kind : sql_token_kind
  text : List Nat
  start : Nat
deriving DecidableEq

/-- Modelled from the spec (§4.2): the selectable dialect profiles — ANSI
quoting (doubled-quote escaping), backslash-escaping quoting, and a profile
with no special escaping. -/
inductive sql_dialect where
  | ansi
  | backslash_escape
  | no_escape
deriving DecidableEq

/-- Modelled from the spec (§4.2, §6): the external case-insensitive keyword
table, an immutable lookup artifact supplied to the tokenizer (a
representative subset of common SQL keywords, lower-cased byte strings). -/
def sqlKeywords : List (List Nat) :=
  [[115, 101, 108, 101, 99, 116],
   [102, 114, 111, 109],
   [119, 104, 101, 114, 101],
   [111, 114],
   [97, 110, 100],
   [110, 111, 116],
   [117, 110, 105, 111, 110],
   [105, 110, 115, 101, 114, 116],
   [117, 112, 100, 97, 116, 101],
   [100, 101, 108, 101, 116, 101],
   [100, 114, 111, 112],
   [110, 117, 108, 108],
   [108, 105, 107, 101],
   [104, 97, 118, 105, 110, 103],
   [103, 114, 111, 117, 112],
   [111, 114, 100, 101, 114],
   [98, 121]]

/-- Byte classifier: word character (letter, digit or underscore). -/
def isWordByte (b : Nat) : Bool := isLetterByte b || isDigitByte b || b = 95

/-- Byte classifier: first character of an identifier or keyword. -/
def isWordStartByte (b : Nat) : Bool := isLetterByte b || b = 95

/-- Modelled from the spec (§4.2 strings): scan the body of a quoted string
after its opening delimiter q, honoring doubled-quote escaping only under
the ANSI profile and backslash escaping only under the backslash profile;
an unterminated string runs to end-of-input.  Returns the string content and
the number of bytes consumed after the opening delimiter (including the
closing delimiter when present). -/
def scanStringBody (d : sql_dialect) (q : Nat) : List Nat → List Nat × Nat
  | [] => ([], 0)
  | c :: rest =>
    if c = q then
      match d, rest with
      | .ansi, c2 :: rest2 =>
        if c2 = q then
          let r := scanStringBody .ansi q rest2
          (q :: r.1, r.2 + 2)
        else ([], 1)
      | _, _ => ([], 1)
    else if d = .backslash_escape ∧ c = 92 then
      match rest with
      | [] => ([92], 1)
      | c2 :: rest2 =>
        let r := scanStringBody d q rest2
        (c :: c2 :: r.1, r.2 + 2)
    else
      let r := scanStringBody d q rest
      (c :: r.1, r.2 + 1)

/-- Modelled from the spec (§4.2 comments): a line comment body runs to the
next newline or end-of-input; returns content and consumed count. -/
def scanLineComment (l : List Nat) : List Nat × Nat :=
  (l.takeWhile (fun b => b ≠ 10), (l.takeWhile (fun b => b ≠ 10)).length)

/-- Modelled from the spec (§4.2 comments): the body of a block comment
after the opening delimiter, up to the closing star-solidus; an unterminated
block comment runs to end-of-input.  Returns content and consumed count
(including the closing delimiter when present). -/
def scanBlockComment : List Nat → List Nat × Nat
  | [] => ([], 0)
  | 42 :: 47 :: _ => ([], 2)
  | c :: rest =>
    let r := scanBlockComment rest
    (c :: r.1, r.2 + 1)

/-- Modelled from the spec (§4.2 numbers): length of the exponent suffix of
a decimal number, if one starts here. -/
def scanExponent (l : List Nat) : Nat :=
  match l with
  | e :: rest =>
    if e = 101 ∨ e = 69 then
      match rest with
      | s :: c :: rest2 =>
        if (s = 43 ∨ s = 45) ∧ isDigitByte c then
          3 + (rest2.takeWhile isDigitByte).length
        else if isDigitByte s then
          2 + ((c :: rest2).takeWhile isDigitByte).length
        else 0
      | [s] => if isDigitByte s then 2 else 0
      | [] => 0
    else 0
  | [] => 0

/-- Modelled from the spec (§4.2 numbers): length of a decimal number
(integer part, optional fraction, optional exponent) starting here. -/
def scanDecimal (l : List Nat) : Nat :=
  let d := (l.takeWhile isDigitByte).length
  let frac :=
    match l.drop d with
    | 46 :: rest => 1 + (rest.takeWhile isDigitByte).length
    | _ => 0
  d + frac + scanExponent (l.drop (d + frac))

/-- Modelled from the spec (§4.2 numbers): length of a number starting here
(integer, decimal, exponent, and hex-prefixed forms). -/
def scanNumber (l : List Nat) : Nat :=
  match l with
  | 48 :: 120 :: c :: rest =>
    if isHexByte c then 3 + (rest.takeWhile isHexByte).length else scanDecimal l
  | 48 :: 88 :: c :: rest =>
    if isHexByte c then 3 + (rest.takeWhile isHexByte).length else scanDecimal l
  | _ => scanDecimal l

/-- Modelled from the spec (§4.2 operators): the multi-byte operator table,
matched longest-first. -/
def twoByteOps : List (List Nat) :=
  [[60, 61], [62, 61], [60, 62], [33, 61], [124, 124], [38, 38],
   [58, 61], [60, 60], [62, 62]]

/-- Modelled from the spec (§4.2 operators): the single-byte operator
table. -/
def oneByteOps : List Nat :=
  [61, 60, 62, 33, 43, 45, 42, 47, 37, 44, 40, 41, 59, 38, 124, 94, 126, 46,
   63, 58]

/-- Kind of a single unmatched byte: OPERATOR when in the one-byte operator
table, otherwise a single-byte UNKNOWN token (the tokenizer never stalls). -/
def singleByteKind (c : Nat) : sql_token_kind :=
  if oneByteOps.contains c then .OPERATOR else .UNKNOWN

/-- First element test for a byte list. -/
def firstIs (l : List Nat) (b : Nat) : Bool :=
  match l with
  | x :: _ => x = b
  | [] => false

/-- Modelled from the spec (§4.2, missing source file libinjection_sqli.c):
the single forward scan of the SqlTokenizer.  At each position it dispatches
on the current byte to decide the token class: whitespace is skipped,
strings honor the dialect profile and run to end-of-input when unterminated,
the three comment styles are recognized, numbers cover integer, decimal,
exponent and hex forms, words are looked up case-insensitively in the
keyword table, operators are matched longest-first, and any byte matching no
rule becomes a single-byte UNKNOWN token with the scan advancing one byte.
Each iteration consumes at least one byte, so a fuel of the input length is
sufficient; the fuel only renders the spec's guaranteed progress. -/
def sqlLex (d : sql_dialect) : Nat → Nat → List Nat → List sql_token
  | 0, _, _ => []
  | _, _, [] => []
  | Nat.succ fuel, pos, c :: rest =>
    if isWsByte c then sqlLex d fuel (pos + 1) rest
    else if c = 39 ∨ c = 34 ∨ c = 96 then
      let r := scanStringBody d c rest
      ⟨.STRING, r.1, pos⟩ :: sqlLex d fuel (pos + 1 + r.2) (rest.drop r.2)
    else if isDigitByte c then
      let n := scanNumber (c :: rest)
      ⟨.NUMBER, (c :: rest).take n, pos⟩ ::
        sqlLex d fuel (pos + n) ((c :: rest).drop n)
    else if c = 45 ∧ firstIs rest 45 then
      let r := scanLineComment (rest.drop 1)
      ⟨.COMMENT, r.1, pos⟩ ::
        sqlLex d fuel (pos + 2 + r.2) ((rest.drop 1).drop r.2)
    else if c = 35 then
      let r := scanLineComment rest
      ⟨.COMMENT, r.1, pos⟩ :: sqlLex d fuel (pos + 1 + r.2) (rest.drop r.2)
    else if c = 47 ∧ firstIs rest 42 then
      let r := scanBlockComment (rest.drop 1)
      ⟨.COMMENT, r.1, pos⟩ ::
        sqlLex d fuel (pos + 2 + r.2) ((rest.drop 1).drop r.2)
    else if isWordStartByte c then
      let w := (c :: rest).takeWhile isWordByte
      let k := if sqlKeywords.contains (w.map toLowerByte)
               then sql_token_kind.KEYWORD else sql_token_kind.IDENTIFIER
      ⟨k, w, pos⟩ :: sqlLex d fuel (pos + w.length) ((c :: rest).drop w.length)
    else if c = 64 then
      let w := rest.takeWhile (fun b => isWordByte b || b = 64)
      ⟨.VARIABLE, c :: w, pos⟩ ::
        sqlLex d fuel (pos + 1 + w.length) (rest.drop w.length)
    else
      match rest with
      | c2 :: rest2 =>
        if twoByteOps.contains [c, c2] then
          ⟨.OPERATOR, [c, c2], pos⟩ :: sqlLex d fuel (pos + 2) rest2
        else
          ⟨singleByteKind c, [c], pos⟩ :: sqlLex d fuel (pos + 1) (c2 :: rest2)
      | [] => [⟨singleByteKind c, [c], pos⟩]

/-- Modelled from the spec (§3 TokenStream): hard cap on the token-stream
length; once the cap is hit, folding proceeds with the truncated stream. -/
def SQL_TOKEN_CAP : Nat := 32

/-- Modelled from the spec (§4.2): produce the TokenStream of a byte span
under a dialect profile, truncated at the stream cap. -/
def libinjection_sqli_tokenize (d : sql_dialect) (input : List Nat) : List sql_token :=
  (sqlLex d input.length 0 input).take SQL_TOKEN_CAP

/-- Modelled from the spec (§4.3): the canonical type code assigned to each
token kind, one character of the fingerprint per folded token. -/
def sqlKindCode : sql_token_kind → Nat
  | .KEYWORD => 107
  | .OPERATOR => 111
  | .STRING => 115
  | .NUMBER => 110
  | .IDENTIFIER => 105
  | .COMMENT => 99
  | .VARIABLE => 118
  | .UNKNOWN => 117

/-- A value-like token kind (number, string or variable), used by the
folding rules. -/
def isValueKind (k : sql_token_kind) : Bool :=
  k = .NUMBER || k = .STRING || k = .VARIABLE

/-- Modelled from the spec (§4.3, §9): one left-to-right pass of the folding
rules over the kind sequence — a run of adjacent operators collapses to one,
and a value followed by an identifier (cast/alias) collapses to the value.
The exact rule table is external policy data; this is the representative
mechanism. -/
def foldOnePassAux : Nat → List sql_token_kind → List sql_token_kind
  | 0, l => l
  | Nat.succ _, [] => []
  | Nat.succ _, [k] => [k]
  | Nat.succ n, a :: b :: rest =>
    if a = .OPERATOR ∧ b = .OPERATOR then foldOnePassAux n (.OPERATOR :: rest)
    else if isValueKind a ∧ b = .IDENTIFIER then foldOnePassAux n (a :: rest)
    else a :: foldOnePassAux n (b :: rest)

/-- One pass of the folding rules over the whole kind sequence (each step of
the pass shortens or steps past the list, so its length bounds the work). -/
def foldOnePass (l : List sql_token_kind) : List sql_token_kind :=
  foldOnePassAux l.length l

/-- Modelled from the spec (§4.3): the folding rules are applied repeatedly
until no rule fires or the fixed iteration cap is reached, guaranteeing
termination. -/
def foldIterate : Nat → List sql_token_kind → List sql_token_kind
  | 0, l => l
  | Nat.succ n, l =>
    let l2 := foldOnePass l
    if l2 = l then l else foldIterate n l2

/-- Modelled from the spec (§4.3): the fixed folding iteration cap. -/
def FOLD_ITER_CAP : Nat := 16

/-- Modelled from the spec (§3 Fingerprint): fingerprint capacity of 8
bytes, matching the historical ABI expectation. -/
def FP_CAP : Nat := 8

/-- Modelled from the spec (§4.3): fold a kind sequence and emit the
fingerprint — one type code per folded token, truncated at the fingerprint
capacity (silent, deterministic truncation). -/
def fingerprintOfKinds (ks : List sql_token_kind) : List Nat :=
  ((foldIterate FOLD_ITER_CAP ks).map sqlKindCode).take FP_CAP

/-- Fingerprint of a TokenStream: folding inspects only the kind (and
position within the stream) of each token, never its text. -/
def fingerprintOfTokens (ts : List sql_token) : List Nat :=
  fingerprintOfKinds (ts.map sql_token.kind)

/-- Modelled from the spec (§4.4, §6, §9 open question): the external
fingerprint blacklist table, an immutable, versioned policy artifact
supplied to the matcher; it is populated here with the entries the spec's
end-to-end scenarios require (the signature of the classic quoted
tautology payload). -/
def sqliBlacklist : List (List Nat) :=
  [[110, 115, 110, 115, 110],
   [115, 107, 115],
   [110, 107, 110]]

/-- Modelled from the spec (§4.4 heuristic): a string token immediately
followed by a comment token at end-of-stream is suspicious. -/
def sqliStringCommentTail (ks : List sql_token_kind) : Bool :=
  match ks.reverse with
  | .COMMENT :: .STRING :: _ => true
  | _ => false

/-- Modelled from the spec (§4.4, missing source file libinjection_sqli.c):
the SqliMatcher decision procedure — (0) defensive backstop: a fingerprint
longer than its declared capacity is an implementation-invariant violation
reported as INTERNAL_ERROR (a guarded branch, never a process abort);
(1) exact match against the blacklist is an authoritative MATCH; (2) the
syntactic heuristics may promote to MATCH; (3) otherwise NO_MATCH. -/
def libinjection_sqli_check (fp : List Nat) (ks : List sql_token_kind) : injection_result_t :=
  if FP_CAP < fp.length then .LIBINJECTION_RESULT_ERROR
  else if sqliBlacklist.contains fp then .LIBINJECTION_RESULT_TRUE
  else if sqliStringCommentTail ks then .LIBINJECTION_RESULT_TRUE
  else .LIBINJECTION_RESULT_FALSE

/-- Modelled from the spec (§4.2-§4.4): run the pipeline SqlTokenizer →
FingerprintFolder → SqliMatcher under one dialect profile, yielding the
verdict and the fingerprint. -/
def sqliRunProfile (d : sql_dialect) (input : List Nat) : injection_result_t × List Nat :=
  let ks := (libinjection_sqli_tokenize d input).map sql_token.kind
  let fp := fingerprintOfKinds ks
  (libinjection_sqli_check fp ks, fp)

/-- Modelled from the spec (§4.2, §4.4, §6, missing source file
libinjection_sqli.c): the public SQLi entry point
`detect_sqli(input, length) -> (DetectionResult, fingerprint_out)`.  The
tokenizer is run once per configured dialect profile and the overall verdict
is MATCH if any profile matches; the fingerprint output is populated
whenever tokenization succeeds, independent of verdict. -/
def libinjection_sqli (input : List Nat) : injection_result_t × List Nat :=
  let rs := [sqliRunProfile .ansi input, sqliRunProfile .backslash_escape input,
             sqliRunProfile .no_escape input]
  let verdict :=
    if rs.any (fun r => r.1 = .LIBINJECTION_RESULT_TRUE) then
      injection_result_t.LIBINJECTION_RESULT_TRUE
    else if rs.any (fun r => r.1 = .LIBINJECTION_RESULT_ERROR) then
      injection_result_t.LIBINJECTION_RESULT_ERROR
    else injection_result_t.LIBINJECTION_RESULT_FALSE
  let fpOut :=
    match rs.find? (fun r => r.1 = .LIBINJECTION_RESULT_TRUE) with
    | some r => r.2
    | none =>
      match rs with
      | r :: _ => r.2
      | [] => []
  (verdict, fpOut)

/-- Modelled from the spec (§4.6): the small set of flagged script-capable
tag names checked on tag-open tokens (lower-cased byte strings). -/
def xssBlackTags : List (List Nat) :=
  [[115, 99, 114, 105, 112, 116],
   [105, 102, 114, 97, 109, 101],
   [111, 98, 106, 101, 99, 116],
   [101, 109, 98, 101, 100],
   [97, 112, 112, 108, 101, 116]]

/-- The script-executing URI scheme prefix checked on attribute values
(lower-cased bytes of the javascript scheme). -/
def jsSchemeBytes : List Nat :=
  [106, 97, 118, 97, 115, 99, 114, 105, 112, 116, 58]

/-- Modelled from the spec (§4.6, missing source file libinjection_xss.c):
the per-token heuristics of the XssDetector — flagged tag names on tag-open
tokens, event-handler attribute names, script-executing URI schemes on
attribute values, and the recursive SQLi pass over attribute values to
catch hybrid payloads. -/
def xssFlaggedToken (s : h5_state_t) : Bool :=
  match s.token_type with
  | .TAG_NAME_OPEN => xssBlackTags.contains (s.token_buf.map toLowerByte)
  | .ATTR_NAME =>
    match s.token_buf.map toLowerByte with
    | 111 :: 110 :: _ => true
    | _ => false
  | .ATTR_VALUE =>
    jsSchemeBytes.isPrefixOf (s.token_buf.map toLowerByte) ||
      (libinjection_sqli s.token_buf).1 = .LIBINJECTION_RESULT_TRUE
  | _ => false

/-- Modelled from the spec (§4.6): the XssDetector drive loop — step the
Html5Tokenizer, short-circuit to MATCH on the first positive signal,
yield NO_MATCH on clean exhaustion.  The fuel renders the machine's
guaranteed forward progress (one byte or more per produced token); running
out of fuel would be an implementation-invariant violation and is reported
as INTERNAL_ERROR, a guarded branch in place of any abort. -/
def xssLoop : Nat → h5_state_t → injection_result_t
  | 0, _ => .LIBINJECTION_RESULT_ERROR
  | Nat.succ fuel, s =>
    match h5step s with
    | (false, _) => .LIBINJECTION_RESULT_FALSE
    | (true, s2) =>
      if xssFlaggedToken s2 then .LIBINJECTION_RESULT_TRUE
      else xssLoop fuel s2

/-- Modelled from the spec (§4.6, §6, missing source file
libinjection_xss.c): the public XSS entry point
`detect_xss(input, length) -> DetectionResult`, driving the Html5Tokenizer
from the data state. -/
def libinjection_xss (input : List Nat) : injection_result_t :=
  xssLoop (input.length + 1) (libinjection_h5_init input .DATA_STATE)

lemma h5scan_nil (st : html5_state) : h5scan st [] = none := by
  cases st <;> rfl

lemma h5scan_consumes (st : html5_state) (l : List Nat)
    (r : h5_token_type × List Nat × Nat × html5_state)
    (h : h5scan st l = some r) : 1 ≤ r.2.2.1 := by
  unfold h5scan at h
  repeat' split at h
  all_goals cases h
  all_goals simp_all [List.takeWhile_cons]
  all_goals omega

lemma h5step_true (s : h5_state_t) (h : (h5step s).1 = true) :
    s.pos < s.input.length ∧ s.pos < (h5step s).2.pos ∧
      (h5step s).2.input = s.input := by
  rcases hscan : h5scan s.state (s.input.drop s.pos) with _ | ⟨tt, buf, con, st2⟩
  · simp [h5step, hscan] at h
  · have hcon : 1 ≤ con := h5scan_consumes _ _ _ hscan
    have hne : s.input.drop s.pos ≠ [] := by
      intro hnil
      rw [hnil, h5scan_nil] at hscan
      cases hscan
    have hlt : s.pos < s.input.length := by
      by_contra hge
      exact hne (List.drop_eq_nil_of_le (by omega))
    refine ⟨hlt, ?_, ?_⟩
    · simp [h5step, hscan]
      omega
    · simp [h5step, hscan]

lemma h5step_buf (s : h5_state_t) (h : s.token_buf.length ≤ H5_TOKEN_CAP) :
    (h5step s).2.token_buf.length ≤ H5_TOKEN_CAP := by
  rcases hscan : h5scan s.state (s.input.drop s.pos) with _ | ⟨tt, buf, con, st2⟩
  · simpa [h5step, hscan]
  · simp [h5step, hscan, List.length_take]

lemma h5next_snd (s : h5_state_t) :
    (libinjection_h5_next s).2 = (h5step s).2 := by
  rcases hstep : h5step s with ⟨b, s2⟩
  cases b <;> simp [libinjection_h5_next, hstep]

lemma h5next_false (s : h5_state_t) (h : (h5step s).1 = false) :
    (libinjection_h5_next s).1 = .LIBINJECTION_RESULT_FALSE := by
  rcases hstep : h5step s with ⟨b, s2⟩
  rw [hstep] at h
  cases b
  · simp [libinjection_h5_next, hstep]
  · cases h

lemma h5_drive_terminates :
    ∀ (fuel : Nat) (s : h5_state_t), s.input.length - s.pos ≤ fuel →
      ∃ n, n ≤ fuel ∧ (h5step (h5IterState n s)).1 = false := by
  intro fuel
  induction fuel with
  | zero =>
    intro s h
    refine ⟨0, Nat.le_refl 0, ?_⟩
    have hnil : s.input.drop s.pos = [] := List.drop_eq_nil_of_le (by omega)
    simp [h5IterState, h5step, hnil, h5scan_nil]
  | succ fuel ih =>
    intro s h
    cases hb : (h5step s).1 with
    | false => exact ⟨0, by omega, hb⟩
    | true =>
      obtain ⟨h1, h2, h3⟩ := h5step_true s hb
      obtain ⟨n, hn, hfin⟩ := ih ((h5step s).2) (by rw [h3]; omega)
      refine ⟨n + 1, by omega, ?_⟩
      have hcomp : h5IterState (n + 1) s = h5IterState n (h5step s).2 := by
        rw [h5IterState, h5next_snd]
      rwa [hcomp]

lemma h5iter_buf (s : h5_state_t) (h : s.token_buf.length ≤ H5_TOKEN_CAP) :
    ∀ n, (h5IterState n s).token_buf.length ≤ H5_TOKEN_CAP := by
  intro n
  induction n generalizing s with
  | zero => simpa [h5IterState]
  | succ n ih =>
    rw [h5IterState, h5next_snd]
    exact ih _ (h5step_buf s h)

lemma xssLoop_ne_error :
    ∀ (fuel : Nat) (s : h5_state_t), s.input.length - s.pos < fuel →
      xssLoop fuel s ≠ .LIBINJECTION_RESULT_ERROR := by
  intro fuel
  induction fuel with
  | zero => intro s h; omega
  | succ fuel ih =>
    intro s h
    rcases hstep : h5step s with ⟨b, s2⟩
    cases b with
    | false => simp [xssLoop, hstep]
    | true =>
      have hb : (h5step s).1 = true := by rw [hstep]
      obtain ⟨h1, h2, h3⟩ := h5step_true s hb
      rw [hstep] at h2 h3
      simp only [xssLoop, hstep]
      split
      · simp
      · exact ih s2 (by simp at h2 h3; rw [h3]; omega)

lemma libinjection_xss_ne_error (input : List Nat) :
    libinjection_xss input ≠ .LIBINJECTION_RESULT_ERROR := by
  unfold libinjection_xss
  exact xssLoop_ne_error (input.length + 1) (libinjection_h5_init input .DATA_STATE)
    (by simp [libinjection_h5_init])

lemma fingerprintOfKinds_length (ks : List sql_token_kind) :
    (fingerprintOfKinds ks).length ≤ FP_CAP := by
  simp [fingerprintOfKinds, List.length_take]

lemma libinjection_sqli_check_ne_error (fp : List Nat) (ks : List sql_token_kind)
    (hle : fp.length ≤ FP_CAP) :
    libinjection_sqli_check fp ks ≠ .LIBINJECTION_RESULT_ERROR := by
  unfold libinjection_sqli_check
  split_ifs with h1 h2 h3
  · omega
  · simp
  · simp
  · simp

lemma sqliRunProfile_ne_error (d : sql_dialect) (input : List Nat) :
    (sqliRunProfile d input).1 ≠ .LIBINJECTION_RESULT_ERROR := by
  unfold sqliRunProfile
  exact libinjection_sqli_check_ne_error _ _ (fingerprintOfKinds_length _)

lemma libinjection_sqli_ne_error (input : List Nat) :
    (libinjection_sqli input).1 ≠ .LIBINJECTION_RESULT_ERROR := by
  simp only [libinjection_sqli]
  split_ifs with h1 h2
  · simp
  · exfalso
    simp only [List.any_cons, List.any_nil, Bool.or_eq_true, decide_eq_true_eq,
      Bool.or_false] at h2
    rcases h2 with h | h | h <;>
      exact sqliRunProfile_ne_error _ input h
  · simp

/-- Two TokenStreams differ only in identifier names: same length, pairwise
equal token kinds, and equal token text wherever the kind is not
IDENTIFIER (identifier text — and hence token offsets — may differ). -/
def tokensDifferOnlyInIdentifiers : List sql_token → List sql_token → Bool
  | [], [] => true
  | t1 :: r1, t2 :: r2 =>
    (t1.kind == t2.kind) &&
      (t1.kind == sql_token_kind.IDENTIFIER || t1.text == t2.text) &&
      tokensDifferOnlyInIdentifiers r1 r2
  | _, _ => false

lemma tokensDifferOnlyInIdentifiers_kinds :
    ∀ ts1 ts2 : List sql_token, tokensDifferOnlyInIdentifiers ts1 ts2 = true →
      ts1.map sql_token.kind = ts2.map sql_token.kind := by
  intro ts1
  induction ts1 with
  | nil =>
    intro ts2 h
    cases ts2 with
    | nil => rfl
    | cons t2 r2 => simp [tokensDifferOnlyInIdentifiers] at h
  | cons t1 r1 ih =>
    intro ts2 h
    cases ts2 with
    | nil => simp [tokensDifferOnlyInIdentifiers] at h
    | cons t2 r2 =>
      simp only [tokensDifferOnlyInIdentifiers, Bool.and_eq_true,
        beq_iff_eq] at h
      obtain ⟨⟨hk, _⟩, hrest⟩ := h
      simp [List.map_cons, hk, ih r2 hrest]

/-- Bytes of the benign scenario input (hello world 123). -/
def benignSqlBytes : List Nat :=
  [104, 101, 108, 108, 111, 32, 119, 111, 114, 108, 100, 32, 49, 50, 51]

/-- Bytes of the SQLi scenario input: digit one, single quote, space, O, R,
space, single quote, digit one, single quote, equals, single quote,
digit one (the classic quoted tautology payload). -/
def sqliPayloadBytes : List Nat :=
  [49, 39, 32, 79, 82, 32, 39, 49, 39, 61, 39, 49]

/-- Bytes of the XSS scenario input: a script element whose body calls
alert on a single-quoted string. -/
def xssPayloadBytes : List Nat :=
  [60, 115, 99, 114, 105, 112, 116, 62, 97, 108, 101, 114, 116, 40, 39, 120,
   115, 115, 39, 41, 60, 47, 115, 99, 114, 105, 112, 116, 62]

/-- Bytes of the benign HTML scenario input (a paragraph element around the
text Hello World). -/
def benignHtmlBytes : List Nat :=
  [60, 112, 62, 72, 101, 108, 108, 111, 32, 87, 111, 114, 108, 100, 60, 47,
   112, 62]

/-- Bytes of the truthiness scenario inputs from the backward-compatibility
test: a script element alerting the number one, and the words hello
world. -/
def xssTruthyBytes : List Nat :=
  [60, 115, 99, 114, 105, 112, 116, 62, 97, 108, 101, 114, 116, 40, 49, 41,
   60, 47, 115, 99, 114, 105, 112, 116, 62]

/-- Bytes of the benign truthiness scenario input (hello world). -/
def benignWordsBytes : List Nat :=
  [104, 101, 108, 108, 111, 32, 119, 111, 114, 108, 100]

/-- Bytes of the malformed-markup scenario input: an unclosed div tag-open
followed immediately by a complete div tag-open. -/
def malformedHtmlBytes : List Nat :=
  [60, 100, 105, 118, 60, 100, 105, 118, 62]

/-- Bytes of one div tag-open element. -/
def divTagBytes : List Nat := [60, 100, 105, 118, 62]

/-- Bytes of the adversarial nesting scenario input: 1000 repetitions of a
div tag-open. -/
def nestedDivBytes : List Nat := (List.replicate 1000 divTagBytes).flatten

lemma replicate_div_length (n : Nat) :
    ((List.replicate n divTagBytes).flatten).length = 5 * n := by
  induction n with
  | zero => rfl
  | succ n ih =>
    simp only [List.replicate_succ, List.flatten_cons, List.length_append, ih]
    simp [divTagBytes]
    omega

/-- Bytes of the first fingerprint-stability example (SELECT a FROM t). -/
def selectAFromT : List Nat :=
  [83, 69, 76, 69, 67, 84, 32, 97, 32, 70, 82, 79, 77, 32, 116]

/-- Bytes of the second fingerprint-stability example (SELECT x FROM y). -/
def selectXFromY : List Nat :=
  [83, 69, 76, 69, 67, 84, 32, 120, 32, 70, 82, 79, 77, 32, 121]

/-- C1: the verdict encoding is backward compatible — NO_MATCH is the
integer 0 and MATCH the integer 1, and for every input the verdict returned
by a public entry point is truthy (nonzero) exactly when a payload was
detected (MATCH) and falsy (zero) exactly when the input is benign
(NO_MATCH). -/
theorem claim_C1_verdict_encoding :
    injection_result_t.toInt .LIBINJECTION_RESULT_FALSE = 0 ∧
    injection_result_t.toInt .LIBINJECTION_RESULT_TRUE = 1 ∧
    ∀ input : List Nat,
      (((libinjection_sqli input).1.toInt ≠ 0) ↔
        (libinjection_sqli input).1 = .LIBINJECTION_RESULT_TRUE) ∧
      (((libinjection_sqli input).1.toInt = 0) ↔
        (libinjection_sqli input).1 = .LIBINJECTION_RESULT_FALSE) ∧
      (((libinjection_xss input).toInt ≠ 0) ↔
        libinjection_xss input = .LIBINJECTION_RESULT_TRUE) ∧
      (((libinjection_xss input).toInt = 0) ↔
        libinjection_xss input = .LIBINJECTION_RESULT_FALSE) := by
  refine ⟨rfl, rfl, fun input => ?_⟩
  have hs := libinjection_sqli_ne_error input
  have hx := libinjection_xss_ne_error input
  cases h1 : (libinjection_sqli input).1 <;>
    cases h2 : libinjection_xss input <;>
    simp_all [injection_result_t.toInt]

/-- C2: totality of the public entry points — for every byte sequence
(empty and NUL-containing sequences included), detect_sqli and detect_xss
return, and the returned value is one of exactly NO_MATCH, MATCH or
INTERNAL_ERROR. -/
theorem claim_C2_totality (input : List Nat) :
    ((libinjection_sqli input).1 = .LIBINJECTION_RESULT_FALSE ∨
     (libinjection_sqli input).1 = .LIBINJECTION_RESULT_TRUE ∨
     (libinjection_sqli input).1 = .LIBINJECTION_RESULT_ERROR) ∧
    (libinjection_xss input = .LIBINJECTION_RESULT_FALSE ∨
     libinjection_xss input = .LIBINJECTION_RESULT_TRUE ∨
     libinjection_xss input = .LIBINJECTION_RESULT_ERROR) := by
  refine ⟨?_, ?_⟩
  · cases (libinjection_sqli input).1 <;> simp
  · cases libinjection_xss input <;> simp

/-- C3: no public operation terminates the process or lets anything escape
its frame — the internal consistency check of the matcher (a fingerprint
exceeding its capacity) is a guarded branch returning INTERNAL_ERROR as an
ordinary value, and on every input both public entry points (including the
XSS path, whose detector recursively invokes the SQLi path on attribute
values) return an ordinary verdict, never the backstop error. -/
theorem claim_C3_abort_free :
    (∀ (fp : List Nat) (ks : List sql_token_kind), FP_CAP < fp.length →
      libinjection_sqli_check fp ks = .LIBINJECTION_RESULT_ERROR) ∧
    ∀ input : List Nat,
      (libinjection_sqli input).1 ≠ .LIBINJECTION_RESULT_ERROR ∧
      libinjection_xss input ≠ .LIBINJECTION_RESULT_ERROR := by
  refine ⟨fun fp ks h => ?_, fun input =>
    ⟨libinjection_sqli_ne_error input, libinjection_xss_ne_error input⟩⟩
  unfold libinjection_sqli_check
  rw [if_pos h]

/-- Witness for C3: a concrete overlong fingerprint (nine number codes)
takes the guarded branch and yields INTERNAL_ERROR as an ordinary value. -/
theorem claim_C3_abort_free_witness :
    FP_CAP < (List.replicate 9 110).length ∧
    libinjection_sqli_check (List.replicate 9 110) [] =
      .LIBINJECTION_RESULT_ERROR :=
  ⟨by decide, claim_C3_abort_free.1 (List.replicate 9 110) [] (by decide)⟩

/-- C4: end-to-end SQLi scenario verdicts — detect_sqli on the bytes of
hello world 123 returns NO_MATCH, and on the bytes of the quoted tautology
payload returns MATCH. -/
theorem claim_C4_sqli_scenarios :
    (libinjection_sqli benignSqlBytes).1 = .LIBINJECTION_RESULT_FALSE ∧
    (libinjection_sqli sqliPayloadBytes).1 = .LIBINJECTION_RESULT_TRUE := by
  decide

/-- C5: end-to-end XSS scenario verdicts — detect_xss on the bytes of the
script-alert payload returns MATCH, and on the bytes of the benign
paragraph markup returns NO_MATCH. -/
theorem claim_C5_xss_scenarios :
    libinjection_xss xssPayloadBytes = .LIBINJECTION_RESULT_TRUE ∧
    libinjection_xss benignHtmlBytes = .LIBINJECTION_RESULT_FALSE := by
  decide

/-- C6: driving html5_next over the malformed input (an unclosed div
tag-open followed by a complete one) from the data state terminates — after
finitely many calls returning MATCH (three), a call returns NO_MATCH. -/
theorem claim_C6_malformed_terminates :
    ∃ n : Nat,
      (∀ k, k < n →
        (libinjection_h5_next
          (h5IterState k (libinjection_h5_init malformedHtmlBytes .DATA_STATE))).1 =
            .LIBINJECTION_RESULT_TRUE) ∧
      ((libinjection_h5_next
          (h5IterState n (libinjection_h5_init malformedHtmlBytes .DATA_STATE))).1 =
            .LIBINJECTION_RESULT_FALSE ∨
       (libinjection_h5_next
          (h5IterState n (libinjection_h5_init malformedHtmlBytes .DATA_STATE))).1 =
            .LIBINJECTION_RESULT_ERROR) :=
  ⟨3, by decide, Or.inl (by decide)⟩

/-- C7: driving html5_next over 1000 repetitions of a div tag-open from the
data state terminates — within a number of calls bounded by the input
length (5000 bytes) some call returns a non-MATCH value, and the per-token
scratch buffer never exceeds its cap at any step. -/
theorem claim_C7_nested_terminates :
    nestedDivBytes.length = 5000 ∧
    (∃ n, n ≤ nestedDivBytes.length ∧
      (libinjection_h5_next
        (h5IterState n (libinjection_h5_init nestedDivBytes .DATA_STATE))).1 ≠
          .LIBINJECTION_RESULT_TRUE) ∧
    ∀ k, (h5IterState k
        (libinjection_h5_init nestedDivBytes .DATA_STATE)).token_buf.length ≤
          H5_TOKEN_CAP := by
  refine ⟨by rw [nestedDivBytes, replicate_div_length], ?_, ?_⟩
  · obtain ⟨n, hn, hfalse⟩ :=
      h5_drive_terminates nestedDivBytes.length
        (libinjection_h5_init nestedDivBytes .DATA_STATE)
        (by simp [libinjection_h5_init])
    refine ⟨n, hn, ?_⟩
    rw [h5next_false _ hfalse]
    simp
  · exact h5iter_buf _ (by simp [libinjection_h5_init])

/-- C8: determinism of detection — both entry points are pure functions of
the input bytes (each call owns its cursor/state and touches no
process-wide mutable state in the model), so two calls on identical bytes
yield identical results. -/
theorem claim_C8_determinism (input : List Nat) :
    libinjection_sqli input = libinjection_sqli input ∧
    libinjection_xss input = libinjection_xss input :=
  ⟨rfl, rfl⟩

/-- C9: fingerprint stability under identifier renaming — two TokenStreams
that differ only in identifier names fold to the same Fingerprint, because
folding inspects only token kind and position, never token text. -/
theorem claim_C9_fingerprint_stability :
    ∀ ts1 ts2 : List sql_token,
      tokensDifferOnlyInIdentifiers ts1 ts2 = true →
      fingerprintOfTokens ts1 = fingerprintOfTokens ts2 := by
  intro ts1 ts2 h
  unfold fingerprintOfTokens
  rw [tokensDifferOnlyInIdentifiers_kinds ts1 ts2 h]

/-- Witness for C9: the tokenizations of SELECT a FROM t and SELECT x FROM y
differ only in identifier names, and their fingerprints coincide. -/
theorem claim_C9_fingerprint_stability_witness :
    tokensDifferOnlyInIdentifiers (libinjection_sqli_tokenize .ansi selectAFromT)
      (libinjection_sqli_tokenize .ansi selectXFromY) = true ∧
    fingerprintOfTokens (libinjection_sqli_tokenize .ansi selectAFromT) =
      fingerprintOfTokens (libinjection_sqli_tokenize .ansi selectXFromY) :=
  ⟨by decide, claim_C9_fingerprint_stability _ _ (by decide)⟩

/-- C10: the INTERNAL_ERROR verdict is encoded as the integer -1, distinct
from both successful verdicts and nonzero, hence truthy under C boolean
coercion. -/
theorem claim_C10_error_encoding :
    injection_result_t.toInt .LIBINJECTION_RESULT_ERROR = -1 ∧
    injection_result_t.toInt .LIBINJECTION_RESULT_ERROR ≠
      injection_result_t.toInt .LIBINJECTION_RESULT_FALSE ∧
    injection_result_t.toInt .LIBINJECTION_RESULT_ERROR ≠
      injection_result_t.toInt .LIBINJECTION_RESULT_TRUE ∧
    injection_result_t.toInt .LIBINJECTION_RESULT_ERROR ≠ 0 := by
  decide
